import Mathlib

/-
Verification development for the Anaya Watchtower repository.

The operative client-side live-update code is the WebSocketProvider
component in frontend/components/providers.tsx (bundled here inside
src/frontend/components/policies/policy-list.tsx, second document).
WEBSOCKET_FIX.md records that the older useWebSocket hook was removed
and replaced by this provider, so the provider is the implementation
modelled below.

The provider closure state is modelled as an explicit record and each
browser callback (connect invocation, reconnect-timer firing, socket
onopen, socket onclose, socket onmessage, effect cleanup) as one event
of a step function.  Sockets ever constructed by connect are kept in a
history list with their readyState, so that the single-live-connection
property is a theorem rather than a modelling artifact; likewise the
number of live reconnect timers is a counter, not a boolean.
-/

namespace Watchtower

/-- Browser WebSocket readyState values that matter to the code. -/
inductive WSReady where
  | CONNECTING
  | OPEN
  | CLOSED
  deriving DecidableEq, Repr

/-- State captured by the WebSocketProvider closure: the React state
variable isConnected, the refs wsRef / reconnectTimeoutRef /
reconnectAttemptsRef / isMountedRef, the set of query keys marked stale
in the React Query cache, plus a history of all sockets constructed. -/
structure ProviderState where
  isConnected : Bool
  sockets : List WSReady
  wsRef : Option Nat
  reconnectAttempts : Nat
  pendingTimers : Nat
  timerRefSet : Bool
  mounted : Bool
  staleKeys : List String
  deriving DecidableEq, Repr

/-- const RECONNECT_DELAY = 3000 (milliseconds). -/
def RECONNECT_DELAY : ℚ := 3000

/-- const MAX_RECONNECT_ATTEMPTS = 5. -/
def MAX_RECONNECT_ATTEMPTS : Nat := 5

/-- Math.min(delay, 30000) cap applied when scheduling the reconnect. -/
def MAX_RECONNECT_DELAY : ℚ := 30000

/-- A parsed incoming wire message (result of JSON.parse); the handler
only ever reads the type field. -/
structure MsgData where
  type : String
  deriving DecidableEq, Repr

/-- Observable effects of a handler invocation. -/
inductive Out where
  | send (sock : Nat) (payload : String)
  | invalidateQueries (queryKey : String)
  deriving DecidableEq, Repr

/-- Events driving the provider: connect() being invoked, a pending
reconnect timer firing, socket i completing its handshake, socket i
closing, socket i delivering a message (none models a JSON.parse
failure), and the effect cleanup on unmount. -/
inductive Evt where
  | connectCall
  | timerFire
  | sockOpen (i : Nat)
  | sockClose (i : Nat)
  | message (i : Nat) (parsed : Option MsgData)
  | unmount
  deriving DecidableEq, Repr

/-- Result of one event step: the new closure state, the effects
performed, and the delay of a reconnect timer scheduled during the
step, when one was scheduled. -/
structure StepResult where
  state : ProviderState
  out : List Out
  scheduled : Option ℚ
  deriving DecidableEq, Repr

/-- wsRef.current?.readyState. -/
def wsReadyState (st : ProviderState) : Option WSReady :=
  match st.wsRef with
  | none => none
  | some i => st.sockets[i]?

/-- clearTimeout(reconnectTimeoutRef.current); reconnectTimeoutRef.current = null. -/
def clearTimer (st : ProviderState) : ProviderState :=
  if st.timerRefSet then
    { st with pendingTimers := st.pendingTimers - 1, timerRefSet := false }
  else st

/-- queryClient.invalidateQueries for one query key: the key is marked
stale (re-fetch-and-replace), so marking an already stale key changes
nothing. -/
def invalidate (st : ProviderState) (key : String) : ProviderState :=
  { st with staleKeys := st.staleKeys.insert key }

/-- The connect function.  Returns without constructing a socket when
unmounted, when the current socket is OPEN or CONNECTING, or when the
attempt counter has reached MAX_RECONNECT_ATTEMPTS; otherwise it
constructs a new WebSocket (readyState CONNECTING) and stores it in
wsRef.  The try/catch around the constructor is not modelled: WS_URL is
a constant, so the constructor never throws for it. -/
def connectStep (st : ProviderState) : ProviderState :=
  if st.mounted = false then st
  else if wsReadyState st = some .OPEN ∨ wsReadyState st = some .CONNECTING then st
  else if MAX_RECONNECT_ATTEMPTS ≤ st.reconnectAttempts then st
  else
    { st with sockets := st.sockets ++ [.CONNECTING], wsRef := some st.sockets.length }

/-- One event step of the provider. -/
def step (st : ProviderState) (e : Evt) : StepResult :=
  match e with
  | .connectCall => ⟨connectStep st, [], none⟩
  | .timerFire =>
      if st.pendingTimers = 0 then ⟨st, [], none⟩
      else
        -- the timer callback nulls the ref, then calls connect()
        let st1 := { st with pendingTimers := st.pendingTimers - 1, timerRefSet := false }
        ⟨connectStep st1, [], none⟩
  | .sockOpen i =>
      if st.sockets[i]? = some .CONNECTING then
        if st.mounted = false then
          -- onopen with unmounted provider: ws.close(); the socket ends CLOSED
          ⟨{ st with sockets := st.sockets.set i .CLOSED }, [], none⟩
        else
          -- setIsConnected(true); attempts := 0; clear any reconnect timer
          ⟨clearTimer { st with
              sockets := st.sockets.set i .OPEN
              isConnected := true
              reconnectAttempts := 0 }, [], none⟩
      else ⟨st, [], none⟩
  | .sockClose i =>
      if st.sockets[i]? = some .CONNECTING ∨ st.sockets[i]? = some .OPEN then
        let stp := { st with sockets := st.sockets.set i .CLOSED }
        if stp.mounted = false then ⟨stp, [], none⟩
        else
          let st1 := { stp with isConnected := false, wsRef := none }
          if st1.timerRefSet then ⟨st1, [], none⟩
          else
            let attempts := st1.reconnectAttempts + 1
            let delay := RECONNECT_DELAY * (1.5 : ℚ) ^ (attempts - 1)
            let st2 := { st1 with
              reconnectAttempts := attempts
              pendingTimers := st1.pendingTimers + 1
              timerRefSet := true }
            ⟨st2, [], some (min delay MAX_RECONNECT_DELAY)⟩
      else ⟨st, [], none⟩
  | .message i parsed =>
      if st.sockets[i]? = some .OPEN then
        if st.mounted = false then ⟨st, [], none⟩
        else
          match parsed with
          | none => ⟨st, [], none⟩
          | some data =>
              if data.type = "ping" then ⟨st, [.send i "pong"], none⟩
              else if data.type = "connected" then ⟨st, [], none⟩
              else
                let r1 : ProviderState × List Out :=
                  if data.type = "score_updated" then
                    (invalidate st "compliance-score",
                      [.invalidateQueries "compliance-score"])
                  else (st, [])
                let r2 : ProviderState × List Out :=
                  if data.type = "alert_created" then
                    (invalidate r1.1 "alerts", r1.2 ++ [.invalidateQueries "alerts"])
                  else r1
                ⟨r2.1, r2.2, none⟩
      else ⟨st, [], none⟩
  | .unmount =>
      let st1 := clearTimer { st with mounted := false }
      match st1.wsRef with
      | some i => ⟨{ st1 with sockets := st1.sockets.set i .CLOSED, wsRef := none }, [], none⟩
      | none => ⟨st1, [], none⟩

/-- Run a sequence of events. -/
def run (st : ProviderState) (evts : List Evt) : ProviderState :=
  evts.foldl (fun s e => (step s e).state) st

/-- The connection badge in components/layout/header.tsx. -/
def headerLabel (isConnected : Bool) : String :=
  if isConnected then "Live" else "Offline"

/-- Provider closure state as first initialised (before the mount
effect invokes connect). -/
def initState : ProviderState :=
  { isConnected := false, sockets := [], wsRef := none, reconnectAttempts := 0,
    pendingTimers := 0, timerRefSet := false, mounted := true, staleKeys := [] }

/-- States reachable from the freshly initialised provider. -/
inductive Reachable : ProviderState → Prop where
  | init : Reachable initState
  | next {st : ProviderState} (e : Evt) : Reachable st → Reachable (step st e).state

/-- The close event for the socket currently held in wsRef. -/
def closeCurrent (st : ProviderState) : StepResult :=
  step st (.sockClose (st.wsRef.getD 0))

/-- State just before the (n+1)-th consecutive failed attempt: the mount
effect has connected once, and n complete failure cycles (socket closes,
reconnect timer fires and connect runs again) have elapsed. -/
def preFail : Nat → ProviderState
  | 0 => connectStep initState
  | n + 1 => (step (closeCurrent (preFail n)).state .timerFire).state

/-- The reconnect delay the disconnect handler schedules on the n-th
consecutive failure (n starting at 1). -/
def failDelay (n : Nat) : Option ℚ :=
  (closeCurrent (preFail (n - 1))).scheduled

/-- The persistent offline configuration: the attempt counter has
reached the maximum, no socket is referenced or live, and the
connection flag is down. -/
def Offline (st : ProviderState) : Prop :=
  MAX_RECONNECT_ATTEMPTS ≤ st.reconnectAttempts ∧ st.wsRef = none ∧
    st.isConnected = false ∧ ∀ s ∈ st.sockets, s = WSReady.CLOSED

/-- Every live (CONNECTING or OPEN) socket is the one wsRef holds. -/
def Pointing (st : ProviderState) : Prop :=
  ∀ i, (st.sockets[i]? = some WSReady.CONNECTING ∨
        st.sockets[i]? = some WSReady.OPEN) →
    st.wsRef = some i

/-- The reconnect-timer bookkeeping: at most one timer is pending and
the ref slot is occupied exactly when one is. -/
def TimerInv (st : ProviderState) : Prop :=
  st.pendingTimers ≤ 1 ∧ (st.timerRefSet ↔ st.pendingTimers = 1)

/-- The combined step-preserved invariant of the provider. -/
def Inv (st : ProviderState) : Prop := Pointing st ∧ TimerInv st

/- ---------------------------------------------------------------
Workflow orchestrator submit path.
--------------------------------------------------------------- -/

/-- WorkflowRun status values. -/
inductive RunStatus where
  | pending
  | running
  | succeeded
  | failed
  deriving DecidableEq, Repr

/-- A status is terminal when the run has succeeded or failed. -/
def RunStatus.terminal : RunStatus → Bool
  | .succeeded => true
  | .failed => true
  | .pending => false
  | .running => false

/-- One pipeline execution record. -/
structure WorkflowRun where
  runId : Nat
  subjectId : String
  status : RunStatus
  deriving DecidableEq, Repr

/-- Rejection of a submission while a run is in flight. -/
inductive SubmitError where
  | AlreadyRunning
  deriving DecidableEq, Repr

/-- Orchestrator store: the runs recorded so far and the next fresh run id. -/
structure OrchState where
  runs : List WorkflowRun
  nextRunId : Nat
  deriving DecidableEq, Repr

/-- Modelled from the spec: the orchestrator submit path
(backend/graph/workflow.py and its caller) is not among the source
files; this follows spec.md section 4.1 — submit(subjectId, payload)
returns a RunId and fails with AlreadyRunning when a non-terminal run
exists for the subject id; the check and the creation are one atomic
update of the store.  The payload is not inspected by the contract. -/
def submit (st : OrchState) (subjectId : String) (_payload : String) :
    Except SubmitError Nat × OrchState :=
  if st.runs.any (fun r => r.subjectId == subjectId && !r.status.terminal) then
    (.error .AlreadyRunning, st)
  else
    (.ok st.nextRunId,
      { runs := st.runs ++ [⟨st.nextRunId, subjectId, .pending⟩],
        nextRunId := st.nextRunId + 1 })

/- ---------------------------------------------------------------
Decision/Alert step.
--------------------------------------------------------------- -/

/-- Outcome of the Decision/Alert step: the recorded alert_sent flag and
the notification capability invocations performed. -/
structure DecisionOutcome where
  alert_sent : Bool
  notifications : List String
  deriving DecidableEq, Repr

/-- Score alert threshold (default 80 on the [0,100] scale). -/
def SCORE_ALERT_THRESHOLD : ℚ := 80

/-- Modelled from the spec: backend/graph/workflow.py (alert_node and
the conditional edge after the Score step) is not among the source
files; this follows spec.md section 4.1 step 4 — if score < threshold
(default 80) the run invokes the notification capability
(send_slack_alert) and records alert_sent = true, otherwise the run
terminates without alerting. -/
def decisionStep (score : ℚ) : DecisionOutcome :=
  if score < SCORE_ALERT_THRESHOLD then
    { alert_sent := true, notifications := ["send_slack_alert"] }
  else
    { alert_sent := false, notifications := [] }

/- ---------------------------------------------------------------
The public send function of the provider context.
--------------------------------------------------------------- -/

/-- A JSON value, as passed to the provider send function. -/
inductive Json where
  | null
  | bool (b : Bool)
  | num (n : Int)
  | str (s : String)
  | arr (elems : List Json)
  | obj (fields : List (String × Json))

mutual

/-- JSON.stringify modelled over the Json type (string escaping is
elided: keys and string values are emitted verbatim between quotes). -/
def Json.stringify : Json → String
  | .null => "null"
  | .bool true => "true"
  | .bool false => "false"
  | .num n => toString n
  | .str s => "\"" ++ s ++ "\""
  | .arr elems => "[" ++ stringifyElems elems ++ "]"
  | .obj fields => "\x7b" ++ stringifyFields fields ++ "\x7d"

/-- Comma-separated serialisation of array elements. -/
def stringifyElems : List Json → String
  | [] => ""
  | [x] => Json.stringify x
  | x :: y :: xs => Json.stringify x ++ "," ++ stringifyElems (y :: xs)

/-- Comma-separated serialisation of object fields. -/
def stringifyFields : List (String × Json) → String
  | [] => ""
  | [(k, v)] => "\"" ++ k ++ "\":" ++ Json.stringify v
  | (k, v) :: f :: xs =>
      "\"" ++ k ++ "\":" ++ Json.stringify v ++ "," ++ stringifyFields (f :: xs)

end

/-- The send function exposed through the WebSocket context: transmit
JSON.stringify(data) when the current socket is OPEN, otherwise do
nothing at all. -/
def sendFn (st : ProviderState) (data : Json) : ProviderState × Option String :=
  if wsReadyState st = some .OPEN then (st, some data.stringify) else (st, none)

/-- A provider state holding one open socket, used to instantiate the
hypotheses of the message-handler theorems. -/
def openSockState : ProviderState :=
  { initState with sockets := [WSReady.OPEN], wsRef := some 0, isConnected := true }

/- ---------------------------------------------------------------
Theorems.
--------------------------------------------------------------- -/

/- ---------------------------------------------------------------
Helper lemmas for the invariant claims.
--------------------------------------------------------------- -/

theorem mem_of_getElem?_eq {α : Type} (l : List α) (i : Nat) (a : α)
    (h : l[i]? = some a) : a ∈ l := by
  obtain ⟨hlt, he⟩ := List.getElem?_eq_some.mp h
  exact he ▸ List.getElem_mem hlt

theorem connectStep_of_maxed (st : ProviderState)
    (hmax : MAX_RECONNECT_ATTEMPTS ≤ st.reconnectAttempts) (href : st.wsRef = none) :
    connectStep st = st := by
  unfold connectStep wsReadyState
  rw [href]
  simp [hmax]

theorem offline_step (st : ProviderState) (e : Evt) (h : Offline st) :
    Offline (step st e).state ∧ (step st e).state.sockets.length = st.sockets.length := by
  obtain ⟨hmax, href, hconn, hclosed⟩ := h
  have hnotconn : ∀ i : Nat, ¬ st.sockets[i]? = some WSReady.CONNECTING := fun i hw =>
    absurd (hclosed _ (mem_of_getElem?_eq _ _ _ hw)) (by decide)
  have hnotopen : ∀ i : Nat, ¬ st.sockets[i]? = some WSReady.OPEN := fun i hw =>
    absurd (hclosed _ (mem_of_getElem?_eq _ _ _ hw)) (by decide)
  cases e with
  | connectCall =>
      have hcs : connectStep st = st := connectStep_of_maxed st hmax href
      refine ⟨?_, ?_⟩ <;> simp [step, hcs]
      exact ⟨hmax, href, hconn, hclosed⟩
  | timerFire =>
      by_cases ht : st.pendingTimers = 0
      · refine ⟨?_, ?_⟩ <;> simp [step, ht]
        exact ⟨hmax, href, hconn, hclosed⟩
      · have hcs :
            connectStep { st with
              pendingTimers := st.pendingTimers - 1
              timerRefSet := false } =
              { st with
                pendingTimers := st.pendingTimers - 1
                timerRefSet := false } :=
          connectStep_of_maxed _ hmax href
        refine ⟨?_, ?_⟩ <;> simp [step, ht, hcs]
        exact ⟨hmax, href, hconn, hclosed⟩
  | sockOpen i =>
      refine ⟨?_, ?_⟩ <;> simp [step, hnotconn i]
      exact ⟨hmax, href, hconn, hclosed⟩
  | sockClose i =>
      refine ⟨?_, ?_⟩ <;> simp [step, hnotconn i, hnotopen i]
      exact ⟨hmax, href, hconn, hclosed⟩
  | message i m =>
      refine ⟨?_, ?_⟩ <;> simp [step, hnotopen i]
      exact ⟨hmax, href, hconn, hclosed⟩
  | unmount =>
      have hr1 : (clearTimer { st with mounted := false }).wsRef = none := by
        unfold clearTimer
        split <;> simp [href]
      refine ⟨?_, ?_⟩ <;> simp [step, hr1] <;> unfold clearTimer <;> split
      · exact ⟨hmax, href, hconn, hclosed⟩
      · exact ⟨hmax, href, hconn, hclosed⟩
      · rfl
      · rfl


theorem pointing_connectStep (st : ProviderState) (hp : Pointing st) :
    Pointing (connectStep st) := by
  unfold connectStep
  split
  · exact hp
  · split
    · exact hp
    · split
      · exact hp
      · rename_i hmnt hlive hmax
        intro i hi
        rcases lt_trichotomy i st.sockets.length with hlt | heq | hgt
        · exfalso
          rw [List.getElem?_append, if_pos hlt] at hi
          apply hlive
          have hr : wsReadyState st = st.sockets[i]? := by
            unfold wsReadyState
            rw [hp i hi]
          rw [hr]
          exact hi.symm
        · rw [heq]
        · exfalso
          rw [List.getElem?_append, if_neg (not_lt.mpr (le_of_lt hgt))] at hi
          obtain ⟨k, hk⟩ := Nat.exists_eq_add_of_lt hgt
          have hki : i - st.sockets.length = k + 1 := by omega
          rw [hki] at hi
          simp at hi

theorem clearTimer_sockets (st : ProviderState) : (clearTimer st).sockets = st.sockets := by
  unfold clearTimer
  split <;> rfl

theorem clearTimer_wsRef (st : ProviderState) : (clearTimer st).wsRef = st.wsRef := by
  unfold clearTimer
  split <;> rfl

theorem clearTimer_isConnected (st : ProviderState) :
    (clearTimer st).isConnected = st.isConnected := by
  unfold clearTimer
  split <;> rfl

theorem clearTimer_reconnectAttempts (st : ProviderState) :
    (clearTimer st).reconnectAttempts = st.reconnectAttempts := by
  unfold clearTimer
  split <;> rfl

theorem pointing_clearTimer (st : ProviderState) (h : Pointing st) :
    Pointing (clearTimer st) := by
  unfold clearTimer
  split
  · exact h
  · exact h

theorem timerInv_clearTimer (st : ProviderState) (h : TimerInv st) :
    TimerInv (clearTimer st) := by
  obtain ⟨h1, h2⟩ := h
  unfold clearTimer
  split
  · rename_i hset
    have hone : st.pendingTimers = 1 := h2.mp hset
    constructor <;> simp [hone]
  · exact ⟨h1, h2⟩

theorem connectStep_timers (st : ProviderState) :
    (connectStep st).pendingTimers = st.pendingTimers ∧
    (connectStep st).timerRefSet = st.timerRefSet := by
  unfold connectStep
  split
  · exact ⟨rfl, rfl⟩
  · split
    · exact ⟨rfl, rfl⟩
    · split
      · exact ⟨rfl, rfl⟩
      · exact ⟨rfl, rfl⟩

theorem timerInv_connectStep (st : ProviderState) (h : TimerInv st) :
    TimerInv (connectStep st) := by
  obtain ⟨ha, hb⟩ := connectStep_timers st
  refine ⟨?_, ?_⟩
  · rw [ha]
    exact h.1
  · rw [ha, hb]
    exact h.2

theorem message_step_fields (st : ProviderState) (i : Nat) (m : Option MsgData) :
    (step st (.message i m)).state.sockets = st.sockets ∧
    (step st (.message i m)).state.wsRef = st.wsRef ∧
    (step st (.message i m)).state.pendingTimers = st.pendingTimers ∧
    (step st (.message i m)).state.timerRefSet = st.timerRefSet := by
  cases m with
  | none =>
      by_cases hg : st.sockets[i]? = some WSReady.OPEN
      · cases hm : st.mounted with
        | false => simp [step, hg, hm]
        | true => simp [step, hg, hm]
      · simp [step, hg]
  | some d =>
      by_cases hg : st.sockets[i]? = some WSReady.OPEN
      · cases hm : st.mounted with
        | false => simp [step, hg, hm]
        | true =>
            by_cases hp : d.type = "ping"
            · simp [step, hg, hm, hp]
            · by_cases hc : d.type = "connected"
              · simp [step, hg, hm, hp, hc]
              · by_cases hs : d.type = "score_updated"
                · by_cases ha : d.type = "alert_created"
                  · simp [step, hg, hm, hp, hc, hs, ha, invalidate]
                  · simp [step, hg, hm, hp, hc, hs, ha, invalidate]
                · by_cases ha : d.type = "alert_created"
                  · simp [step, hg, hm, hp, hc, hs, ha, invalidate]
                  · simp [step, hg, hm, hp, hc, hs, ha]
      · simp [step, hg]

/-- C5: a wire message of type ping makes the handler reply with a pong
acknowledgment on the same socket and leaves the whole provider state
(connection flag, refs, query cache) unchanged. -/
theorem ping_replies_pong (st : ProviderState) (i : Nat)
    (h1 : st.sockets[i]? = some WSReady.OPEN) (h2 : st.mounted = true) :
    step st (.message i (some ⟨"ping"⟩)) = ⟨st, [.send i "pong"], none⟩ := by
  simp +decide [step, h1, h2]

/-- C5 witness: concrete instantiation at a state with one open socket. -/
theorem ping_replies_pong_witness :
    step openSockState (.message 0 (some ⟨"ping"⟩)) =
      ⟨openSockState, [.send 0 "pong"], none⟩ :=
  ping_replies_pong openSockState 0 (by decide) (by decide)

/-- C6 counterexample: messages of the types the claim names
(step_completed, run_failed, alert_raised) are not processed by the
handler at all — the state, including the query cache, is unchanged and
no invalidation effect is produced. -/
theorem invalidation_message_types_cex :
    step openSockState (.message 0 (some ⟨"step_completed"⟩)) = ⟨openSockState, [], none⟩ ∧
    step openSockState (.message 0 (some ⟨"run_failed"⟩)) = ⟨openSockState, [], none⟩ ∧
    step openSockState (.message 0 (some ⟨"alert_raised"⟩)) = ⟨openSockState, [], none⟩ := by
  refine ⟨?_, ?_, ?_⟩ <;> decide

/-- C6 amended: the invalidation-signal message types of this client
are score_updated and alert_created; a score_updated message
invalidates the compliance-score query cache and an alert_created
message invalidates the alerts query cache. -/
theorem invalidation_message_types (st : ProviderState) (i : Nat)
    (h1 : st.sockets[i]? = some WSReady.OPEN) (h2 : st.mounted = true) :
    (step st (.message i (some ⟨"score_updated"⟩))).out =
        [.invalidateQueries "compliance-score"] ∧
    (step st (.message i (some ⟨"score_updated"⟩))).state.staleKeys =
        st.staleKeys.insert "compliance-score" ∧
    (step st (.message i (some ⟨"alert_created"⟩))).out =
        [.invalidateQueries "alerts"] ∧
    (step st (.message i (some ⟨"alert_created"⟩))).state.staleKeys =
        st.staleKeys.insert "alerts" := by
  refine ⟨?_, ?_, ?_, ?_⟩ <;> simp +decide [step, h1, h2, invalidate]

/-- C6 witness: concrete instantiation at a state with one open socket. -/
theorem invalidation_message_types_witness :
    (step openSockState (.message 0 (some ⟨"score_updated"⟩))).out =
        [.invalidateQueries "compliance-score"] ∧
    (step openSockState (.message 0 (some ⟨"alert_created"⟩))).out =
        [.invalidateQueries "alerts"] := by
  have h := invalidation_message_types openSockState 0 (by decide) (by decide)
  exact ⟨h.1, h.2.2.1⟩

/-- C7: the onopen handler of a connecting socket, with the provider
mounted, resets the consecutive-failure counter to 0 and turns the
connection indicator to connected (rendered Live). -/
theorem open_resets_attempts (st : ProviderState) (i : Nat)
    (h1 : st.mounted = true) (h2 : st.sockets[i]? = some WSReady.CONNECTING) :
    (step st (.sockOpen i)).state.reconnectAttempts = 0 ∧
    (step st (.sockOpen i)).state.isConnected = true ∧
    headerLabel (step st (.sockOpen i)).state.isConnected = "Live" := by
  simp +decide [step, h1, h2, headerLabel, clearTimer_reconnectAttempts,
    clearTimer_isConnected]

/-- C7 witness: concrete instantiation at the state reached right after
the mount effect has constructed the first socket. -/
theorem open_resets_attempts_witness :
    (step (connectStep initState) (.sockOpen 0)).state.reconnectAttempts = 0 ∧
    (step (connectStep initState) (.sockOpen 0)).state.isConnected = true :=
  have h := open_resets_attempts (connectStep initState) 0 (by decide) (by decide)
  ⟨h.1, h.2.1⟩

/-- C8: the Decision/Alert step on a score in [0,100] invokes the
notification capability and records alert_sent exactly when the score
is below the threshold (default 80); at or above the threshold the run
ends with no alert and no notification invocation.  The workflow
definition is modelled from the spec (see decisionStep). -/
theorem decision_alert_threshold (s : ℚ) (h0 : 0 ≤ s) (h100 : s ≤ 100) :
    (s < SCORE_ALERT_THRESHOLD →
      (decisionStep s).alert_sent = true ∧
      (decisionStep s).notifications = ["send_slack_alert"]) ∧
    (SCORE_ALERT_THRESHOLD ≤ s →
      (decisionStep s).alert_sent = false ∧ (decisionStep s).notifications = []) := by
  constructor
  · intro h
    simp [decisionStep, h]
  · intro h
    simp [decisionStep, not_lt.mpr h]

/-- C8 witness: a document scoring 65 alerts, one scoring 92 does not
(the end-to-end scenario of the testable-properties section). -/
theorem decision_alert_threshold_witness :
    ((decisionStep 65).alert_sent = true ∧
      (decisionStep 65).notifications = ["send_slack_alert"]) ∧
    ((decisionStep 92).alert_sent = false ∧ (decisionStep 92).notifications = []) :=
  ⟨(decision_alert_threshold 65 (by norm_num) (by norm_num)).1
      (by norm_num [SCORE_ALERT_THRESHOLD]),
    (decision_alert_threshold 92 (by norm_num) (by norm_num)).2
      (by norm_num [SCORE_ALERT_THRESHOLD])⟩

/-- C10: the public send is a silent no-op unless the current socket is
OPEN — the state is returned untouched and nothing is transmitted — and
when the socket is OPEN it transmits exactly the JSON serialisation of
the data. -/
theorem send_silent_noop_when_not_open (st : ProviderState) (data : Json) :
    (sendFn st data).1 = st ∧
    (wsReadyState st ≠ some WSReady.OPEN → (sendFn st data).2 = none) ∧
    (wsReadyState st = some WSReady.OPEN → (sendFn st data).2 = some data.stringify) := by
  unfold sendFn
  by_cases h : wsReadyState st = some WSReady.OPEN <;> simp [h]

/-- C10 witness: with the open-socket state the payload goes out
serialised; with the initial (no-socket) state nothing goes out. -/
theorem send_silent_noop_when_not_open_witness :
    (sendFn openSockState (Json.obj [("type", Json.str "ping")])).2 =
      some (Json.obj [("type", Json.str "ping")]).stringify ∧
    (sendFn initState (Json.obj [("type", Json.str "ping")])).2 = none :=
  ⟨(send_silent_noop_when_not_open openSockState _).2.2 (by decide),
    (send_silent_noop_when_not_open initState _).2.1 (by decide)⟩

/-- C3: submitting while a non-terminal run exists for the subject id
fails with AlreadyRunning and leaves the store unchanged; submitting
when every run for the subject id is terminal succeeds with the fresh
RunId, which differs from every existing run id.  The submit path is
modelled from the spec (see submit). -/
theorem submit_already_running (st : OrchState) (s p : String) :
    ((∃ r ∈ st.runs, r.subjectId = s ∧ r.status.terminal = false) →
      (submit st s p).1 = .error .AlreadyRunning ∧ (submit st s p).2 = st) ∧
    ((∀ r ∈ st.runs, r.subjectId = s → r.status.terminal = true) →
      (submit st s p).1 = .ok st.nextRunId ∧
      (submit st s p).2.runs = st.runs ++ [⟨st.nextRunId, s, .pending⟩] ∧
      ((∀ r ∈ st.runs, r.runId < st.nextRunId) →
        ∀ r ∈ st.runs, r.runId ≠ st.nextRunId)) := by
  constructor
  · rintro ⟨r, hr, hsub, hterm⟩
    have hany : st.runs.any (fun r => r.subjectId == s && !r.status.terminal) = true :=
      List.any_eq_true.mpr ⟨r, hr, by simp [hsub, hterm]⟩
    simp [submit, hany]
  · intro hall
    have hany : st.runs.any (fun r => r.subjectId == s && !r.status.terminal) = false := by
      rw [Bool.eq_false_iff]
      intro htrue
      obtain ⟨r, hr, hprop⟩ := List.any_eq_true.mp htrue
      rw [Bool.and_eq_true, beq_iff_eq, Bool.not_eq_true'] at hprop
      exact absurd (hall r hr hprop.1) (by simp [hprop.2])
    refine ⟨by simp [submit, hany], by simp [submit, hany], ?_⟩
    intro hlt r hr
    exact Nat.ne_of_lt (hlt r hr)

/-- C3 witness: with a running run for the subject a new submission is
rejected; once that run has failed a submission succeeds. -/
theorem submit_already_running_witness :
    (submit ⟨[⟨0, "doc-1", .running⟩], 1⟩ "doc-1" "payload").1 =
      .error .AlreadyRunning ∧
    (submit ⟨[⟨0, "doc-1", .failed⟩], 1⟩ "doc-1" "payload").1 = .ok 1 :=
  ⟨((submit_already_running ⟨[⟨0, "doc-1", .running⟩], 1⟩ "doc-1" "payload").1
      ⟨⟨0, "doc-1", .running⟩, by simp, by simp [RunStatus.terminal]⟩).1,
    ((submit_already_running ⟨[⟨0, "doc-1", .failed⟩], 1⟩ "doc-1" "payload").2
      (by intro r hr hs; simp at hr; simp [hr, RunStatus.terminal])).1⟩

/-- C4: applying any incoming event message twice is the same as
applying it once — for every message the handler can receive, handling
it a second time from the state the first handling produced leaves that
state exactly as it was (invalidation marks a query key stale, it never
increments or accumulates). -/
theorem message_handling_idempotent (st : ProviderState) (i : Nat) (m : Option MsgData) :
    (step (step st (.message i m)).state (.message i m)).state =
      (step st (.message i m)).state := by
  by_cases hg : st.sockets[i]? = some WSReady.OPEN
  · cases hm : st.mounted with
    | false => simp [step, hg, hm]
    | true =>
      cases m with
      | none => simp [step, hg, hm]
      | some d =>
        by_cases hp : d.type = "ping"
        · simp [step, hg, hm, hp]
        · by_cases hc : d.type = "connected"
          · simp [step, hg, hm, hp, hc]
          · by_cases hs : d.type = "score_updated"
            · have ha : ¬ d.type = "alert_created" := by rw [hs]; decide
              simp [step, hg, hm, hp, hc, hs, ha, invalidate,
                List.insert_of_mem, List.mem_insert_self]
            · by_cases ha : d.type = "alert_created"
              · simp [step, hg, hm, hp, hc, hs, ha, invalidate,
                  List.insert_of_mem, List.mem_insert_self]
              · simp [step, hg, hm, hp, hc, hs, ha]
  · simp [step, hg]

/-- C1 counterexample: on the first consecutive failure the disconnect
handler schedules 3000 ms, not min(3000 * 1.5^1, 30000) = 4500 ms as
the formula of the claim demands. -/
theorem reconnect_backoff_delay_cex :
    failDelay 1 = some 3000 ∧
    failDelay 1 ≠ some (min (RECONNECT_DELAY * (1.5 : ℚ) ^ (1 : ℕ)) MAX_RECONNECT_DELAY) := by
  constructor
  · simp +decide [failDelay, preFail, closeCurrent, step, connectStep, initState, clearTimer,
      wsReadyState, RECONNECT_DELAY, MAX_RECONNECT_ATTEMPTS, MAX_RECONNECT_DELAY]
  · simp +decide [failDelay, preFail, closeCurrent, step, connectStep, initState, clearTimer,
      wsReadyState, RECONNECT_DELAY, MAX_RECONNECT_ATTEMPTS, MAX_RECONNECT_DELAY]
    norm_num

/-- C1 amended: the delay the disconnect handler schedules for the n-th
consecutive failed attempt (1 ≤ n ≤ 5) is
min(baseDelay * 1.5^(n-1), cap) milliseconds with baseDelay 3000 and
cap 30000 — the exponent is n-1, not n. -/
theorem reconnect_backoff_delay (n : Nat) (h1 : 1 ≤ n) (h5 : n ≤ MAX_RECONNECT_ATTEMPTS) :
    failDelay n = some (min (RECONNECT_DELAY * (1.5 : ℚ) ^ (n - 1)) MAX_RECONNECT_DELAY) := by
  rw [MAX_RECONNECT_ATTEMPTS] at h5
  interval_cases n <;>
    simp +decide [failDelay, preFail, closeCurrent, step, connectStep, initState, clearTimer,
      wsReadyState, RECONNECT_DELAY, MAX_RECONNECT_ATTEMPTS, MAX_RECONNECT_DELAY]

/-- C1 witness: the third consecutive failure is delayed
min(3000 * 1.5^2, 30000) = 6750 ms. -/
theorem reconnect_backoff_delay_witness :
    failDelay 3 = some (min (RECONNECT_DELAY * (1.5 : ℚ) ^ (3 - 1 : ℕ)) MAX_RECONNECT_DELAY) :=
  reconnect_backoff_delay 3 (by norm_num) (by norm_num [MAX_RECONNECT_ATTEMPTS])

/-- C2: once the failure counter has reached the maximum with all
sockets closed, every subsequent event sequence leaves the client
offline: connect never constructs another socket, isConnected stays
false, and the header keeps rendering the Offline badge. -/
theorem offline_after_max_attempts (st : ProviderState) (h : Offline st)
    (evts : List Evt) :
    Offline (run st evts) ∧ (run st evts).sockets.length = st.sockets.length ∧
    (run st evts).isConnected = false ∧
    headerLabel (run st evts).isConnected = "Offline" := by
  induction evts generalizing st with
  | nil =>
      have hr : run st [] = st := rfl
      rw [hr]
      exact ⟨h, rfl, h.2.2.1, by simp [headerLabel, h.2.2.1]⟩
  | cons e es ih =>
      obtain ⟨h1, h2⟩ := offline_step st e h
      obtain ⟨ha, hb, hc, hd⟩ := ih (step st e).state h1
      have hrun : run st (e :: es) = run (step st e).state es := rfl
      exact ⟨hrun ▸ ha, by rw [hrun, hb, h2], hrun ▸ hc, hrun ▸ hd⟩

/-- C2 witness: the state after five consecutive failures is offline,
and stays so across a further timer expiry and connect invocation. -/
theorem offline_after_max_attempts_witness :
    Offline (run (preFail 5) [Evt.timerFire, Evt.connectCall]) ∧
    (run (preFail 5) [Evt.timerFire, Evt.connectCall]).sockets.length =
      (preFail 5).sockets.length ∧
    (run (preFail 5) [Evt.timerFire, Evt.connectCall]).isConnected = false ∧
    headerLabel (run (preFail 5) [Evt.timerFire, Evt.connectCall]).isConnected =
      "Offline" :=
  offline_after_max_attempts (preFail 5) (by unfold Offline; decide)
    [Evt.timerFire, Evt.connectCall]

theorem inv_step (st : ProviderState) (e : Evt) (h : Inv st) :
    Inv (step st e).state := by
  obtain ⟨hp, ht⟩ := h
  cases e with
  | connectCall =>
      refine ⟨pointing_connectStep st hp, ?_⟩
      obtain ⟨ha, hb⟩ := connectStep_timers st
      show TimerInv (connectStep st)
      rw [TimerInv, ha, hb]
      exact ht
  | timerFire =>
      by_cases hz : st.pendingTimers = 0
      · simpa [step, hz] using ⟨hp, ht⟩
      · have hone : st.pendingTimers = 1 := by
          have h1 := ht.1
          omega
        show Inv (step st Evt.timerFire).state
        simp only [step, if_neg hz]
        exact ⟨pointing_connectStep _ (fun i hi => hp i hi),
          timerInv_connectStep _ ⟨by simp [hone], by simp [hone]⟩⟩
  | sockOpen i =>
      by_cases hg : st.sockets[i]? = some WSReady.CONNECTING
      · have hrefi : st.wsRef = some i := hp i (Or.inl hg)
        have hpset : Pointing { st with
            sockets := st.sockets.set i WSReady.OPEN
            isConnected := true
            reconnectAttempts := 0 } := by
          intro j hj
          have hj2 : (st.sockets.set i WSReady.OPEN)[j]? = some WSReady.CONNECTING ∨
              (st.sockets.set i WSReady.OPEN)[j]? = some WSReady.OPEN := hj
          show st.wsRef = some j
          rcases eq_or_ne i j with rfl | hne
          · exact hrefi
          · rw [List.getElem?_set, if_neg hne] at hj2
            exact hp j hj2
        cases hm : st.mounted with
        | false =>
            have hgoal : (step st (.sockOpen i)).state =
                { st with sockets := st.sockets.set i WSReady.CLOSED } := by
              simp [step, hg, hm]
            rw [hgoal]
            refine ⟨?_, ht⟩
            intro j hj
            have hj2 : (st.sockets.set i WSReady.CLOSED)[j]? = some WSReady.CONNECTING ∨
                (st.sockets.set i WSReady.CLOSED)[j]? = some WSReady.OPEN := hj
            show st.wsRef = some j
            rcases eq_or_ne i j with rfl | hne
            · rw [List.getElem?_set, if_pos rfl,
                if_pos (List.getElem?_eq_some.mp hg).1] at hj2
              simp at hj2
            · rw [List.getElem?_set, if_neg hne] at hj2
              exact hp j hj2
        | true =>
            have hgoal : (step st (.sockOpen i)).state =
                clearTimer { st with
                  sockets := st.sockets.set i WSReady.OPEN
                  isConnected := true
                  reconnectAttempts := 0 } := by
              simp [step, hg, hm]
            rw [hgoal]
            exact ⟨pointing_clearTimer _ hpset, timerInv_clearTimer _ ⟨ht.1, ht.2⟩⟩
      · simpa [step, hg] using ⟨hp, ht⟩
  | sockClose i =>
      by_cases hg : st.sockets[i]? = some WSReady.CONNECTING ∨
          st.sockets[i]? = some WSReady.OPEN
      · have hrefi : st.wsRef = some i := hp i hg
        have hpset : ∀ j, ((st.sockets.set i WSReady.CLOSED)[j]? = some WSReady.CONNECTING ∨
            (st.sockets.set i WSReady.CLOSED)[j]? = some WSReady.OPEN) → j = i := by
          intro j hj
          rcases eq_or_ne i j with rfl | hne
          · rfl
          · rw [List.getElem?_set, if_neg hne] at hj
            have hji := (hp j hj).symm.trans hrefi
            exact Option.some.inj hji
        have hnolive : ∀ j : Nat, ¬ ((st.sockets.set i WSReady.CLOSED)[j]? =
            some WSReady.CONNECTING ∨
            (st.sockets.set i WSReady.CLOSED)[j]? = some WSReady.OPEN) := by
          intro j hj
          have hji := hpset j hj
          rw [hji] at hj
          rw [List.getElem?_set, if_pos rfl] at hj
          rcases Nat.lt_or_ge i st.sockets.length with hlt | hge
          · rw [if_pos hlt] at hj
            simp at hj
          · rw [if_neg (not_lt.mpr hge)] at hj
            simp at hj
        cases hm : st.mounted with
        | false =>
            have hgoal : (step st (.sockClose i)).state =
                { st with sockets := st.sockets.set i WSReady.CLOSED } := by
              simp [step, hg, hm]
            rw [hgoal]
            refine ⟨?_, ht⟩
            intro j hj
            exact absurd hj (hnolive j)
        | true =>
            cases hset : st.timerRefSet with
            | true =>
                have hgoal : (step st (.sockClose i)).state =
                    { st with
                      sockets := st.sockets.set i WSReady.CLOSED
                      isConnected := false
                      wsRef := none } := by
                  simp [step, hg, hm, hset]
                rw [hgoal]
                refine ⟨?_, ht.1, ?_⟩
                · intro j hj
                  exact absurd hj (hnolive j)
                · show st.timerRefSet ↔ st.pendingTimers = 1
                  exact ht.2
            | false =>
                have hzero : st.pendingTimers = 0 := by
                  obtain ⟨h1, h2⟩ := ht
                  rcases Nat.lt_or_ge st.pendingTimers 1 with hh | hh
                  · omega
                  · exact absurd (h2.mpr (by omega)) (by simp [hset])
                have hgoal : (step st (.sockClose i)).state =
                    { st with
                      sockets := st.sockets.set i WSReady.CLOSED
                      isConnected := false
                      wsRef := none
                      reconnectAttempts := st.reconnectAttempts + 1
                      pendingTimers := st.pendingTimers + 1
                      timerRefSet := true } := by
                  simp [step, hg, hm, hset]
                rw [hgoal]
                refine ⟨?_, ?_, ?_⟩
                · intro j hj
                  exact absurd hj (hnolive j)
                · show st.pendingTimers + 1 ≤ 1
                  simp [hzero]
                · show true = true ↔ st.pendingTimers + 1 = 1
                  simp [hzero]
      · simpa [step, hg] using ⟨hp, ht⟩
  | message i m =>
      obtain ⟨h1, h2, h3, h4⟩ := message_step_fields st i m
      refine ⟨?_, ?_, ?_⟩
      · intro j hj
        rw [h1] at hj
        rw [h2]
        exact hp j hj
      · rw [h3]
        exact ht.1
      · rw [h4, h3]
        exact ht.2
  | unmount =>
      have hw : (clearTimer { st with mounted := false }).wsRef = st.wsRef :=
        clearTimer_wsRef _
      have hs : (clearTimer { st with mounted := false }).sockets = st.sockets :=
        clearTimer_sockets _
      have hti : TimerInv (clearTimer { st with mounted := false }) :=
        timerInv_clearTimer _ ⟨ht.1, ht.2⟩
      cases hv : st.wsRef with
      | none =>
          have hv1 : (clearTimer { st with mounted := false }).wsRef = none :=
            hw.trans hv
          have hgoal : step st Evt.unmount =
              ⟨clearTimer { st with mounted := false }, [], none⟩ := by
            simp only [step, hv1]
          rw [hgoal]
          refine ⟨?_, hti⟩
          intro j hj
          have hj2 : st.sockets[j]? = some WSReady.CONNECTING ∨
              st.sockets[j]? = some WSReady.OPEN := by
            rwa [hs] at hj
          rw [hw, hv]
          exact absurd ((hp j hj2).symm.trans hv) (by simp)
      | some i =>
          have hv1 : (clearTimer { st with mounted := false }).wsRef = some i :=
            hw.trans hv
          have hgoal : step st Evt.unmount =
              ⟨{ clearTimer { st with mounted := false } with
                  sockets := (clearTimer { st with mounted := false }).sockets.set i
                    WSReady.CLOSED
                  wsRef := none }, [], none⟩ := by
            simp only [step, hv1]
          rw [hgoal]
          refine ⟨?_, ⟨hti.1, hti.2⟩⟩
          intro j hj
          have hj3 : ((clearTimer { st with mounted := false }).sockets.set i
              WSReady.CLOSED)[j]? = some WSReady.CONNECTING ∨
              ((clearTimer { st with mounted := false }).sockets.set i
              WSReady.CLOSED)[j]? = some WSReady.OPEN := hj
          rw [hs] at hj3
          show (none : Option Nat) = some j
          exfalso
          rcases eq_or_ne i j with rfl | hne
          · rw [List.getElem?_set, if_pos rfl] at hj3
            rcases Nat.lt_or_ge i st.sockets.length with hlt | hge
            · rw [if_pos hlt] at hj3
              simp at hj3
            · rw [if_neg (not_lt.mpr hge)] at hj3
              simp at hj3
          · rw [List.getElem?_set, if_neg hne] at hj3
            have hji := (hp j hj3).symm.trans hv
            exact hne (Option.some.inj hji).symm

theorem inv_reachable (st : ProviderState) (h : Reachable st) : Inv st := by
  induction h with
  | init =>
      refine ⟨?_, ?_, ?_⟩
      · intro i hi
        simp [initState] at hi
      · simp [initState]
      · simp [initState]
  | next e hst ih => exact inv_step _ e ih

/-- C9: at every reachable state at most one socket is live (any two
live positions in the socket history coincide), at most one reconnect
timer is pending, and invoking connect while the current socket is OPEN
or CONNECTING constructs no new socket. -/
theorem single_live_connection (st : ProviderState) (h : Reachable st) :
    (∀ j k : Nat, (st.sockets[j]? = some WSReady.CONNECTING ∨
             st.sockets[j]? = some WSReady.OPEN) →
            (st.sockets[k]? = some WSReady.CONNECTING ∨
             st.sockets[k]? = some WSReady.OPEN) → j = k) ∧
    st.pendingTimers ≤ 1 ∧
    ((wsReadyState st = some WSReady.OPEN ∨ wsReadyState st = some WSReady.CONNECTING) →
      (step st .connectCall).state.sockets = st.sockets) := by
  obtain ⟨hp, ht⟩ := inv_reachable st h
  refine ⟨?_, ht.1, ?_⟩
  · intro j k hj hk
    exact Option.some.inj ((hp j hj).symm.trans (hp k hk))
  · intro hlive
    show (connectStep st).sockets = st.sockets
    unfold connectStep
    split <;> simp_all

/-- C9 witness: concrete instantiation at the initial provider state. -/
theorem single_live_connection_witness : initState.pendingTimers ≤ 1 :=
  (single_live_connection initState Reachable.init).2.1

end Watchtower
